import Mathlib

/-!
Verification development for the UnEmpower credit pipeline.

This file gives a shallow embedding, in Lean 4, of the algorithmic core of
the repository: the chain-event indexer (`apps/api/event_listener.py`), the
feature extractors (`apps/api/services/features.py`,
`apps/api/services/scoring.py`), the four signal models
(`fraud.py`, `forecasting.py`, `early_warning.py`,
`workproof_integrity.py`), and the offer-composition / fraud-bitmask logic
of `apps/api/routers/ai.py`.  Python floats are embedded as exact rationals
(`ℚ`); Python `int(x)` truncation and `round(x, n)` banker's rounding are
modelled explicitly below; `math.sqrt` / `numpy.std` square roots are kept
as an explicit function parameter `sqrtFn` (any model of floating-point
square root), since none of the proved properties depend on its values.
Database rows are embedded as lists of records, and the SQLAlchemy session
(configured with `autoflush=False`) as a committed store plus a pending
batch that is appended on commit.
-/

set_option maxHeartbeats 1000000

namespace UnEmpower

/-- Python `int(x)` applied to a float/rational: truncation toward zero. -/
def pyInt (q : ℚ) : ℤ := if 0 ≤ q then ⌊q⌋ else -⌊-q⌋

/-- Round a rational to the nearest integer, ties to even
(the rounding used by Python's built-in `round`). -/
def halfEven (x : ℚ) : ℤ :=
  if x - ⌊x⌋ = 1 / 2 then (if Even ⌊x⌋ then ⌊x⌋ else ⌊x⌋ + 1) else round x

/-- Python `round(q, n)`: banker's rounding at `n` decimal digits. -/
def pyRound (n : ℕ) (q : ℚ) : ℚ := (halfEven (q * 10 ^ n) : ℚ) / 10 ^ n

/-! ## Chain indexer (`apps/api/event_listener.py`)

`EventIndexer` polls an RPC endpoint, decodes logs from two contracts and
stores deduplicated rows.  Raw logs and the decoders are kept abstract
(the decoders stand for web3's `process_log`, which may raise, hence
`Option`); the three event tables mirror `database.py`.  The SQLAlchemy
session is created with `autoflush=False`, so the existence check
`db.query(...).filter(tx_hash == ...)` sees only committed rows; pending
`db.add`s are applied by the single `db.commit()` at the end of
`process_block_range`. -/

/-- A raw, undecoded chain log (`w3.eth.get_logs` item). -/
structure RawLog where
  topic0 : String
  txHash : String
  data : List ℕ
  deriving DecidableEq, Repr

/-- Row of `workproof_events` (`database.WorkProofEvent`). -/
structure WorkProofEventRow where
  proofId : ℕ
  worker : String
  proofHash : String
  workUnits : ℕ
  earnedAmount : ℕ
  eventTimestamp : ℕ
  blockNumber : ℕ
  txHash : String
  logIndex : ℕ
  deriving DecidableEq, Repr

/-- Row of `loan_events` (`database.LoanEvent`). -/
structure LoanEventRow where
  borrower : String
  principal : ℕ
  interestAmount : ℕ
  dueDate : ℕ
  nonce : ℕ
  blockNumber : ℕ
  txHash : String
  logIndex : ℕ
  deriving DecidableEq, Repr

/-- Row of `repay_events` (`database.RepayEvent`). -/
structure RepayEventRow where
  borrower : String
  amount : ℕ
  remaining : ℕ
  blockNumber : ℕ
  txHash : String
  logIndex : ℕ
  deriving DecidableEq, Repr

/-- The persisted event store: the three chain-event tables. -/
structure EventStore where
  workproofs : List WorkProofEventRow
  loans : List LoanEventRow
  repays : List RepayEventRow
  deriving DecidableEq, Repr

def emptyStore : EventStore := ⟨[], [], []⟩

/-- One `process_*_event` pass over a list of logs: decode each log
(skipping decode failures, as the `except` clause does), and keep a
decoded event only if no committed row shares its transaction hash
(`db.query(...).filter(tx_hash == log.transactionHash).first()`).
Returns the pending batch staged by `db.add`. -/
def process_events {α : Type} (txh : α → String) (decode : RawLog → Option α)
    (committed : List α) (logs : List RawLog) : List α :=
  (logs.filterMap decode).filter
    (fun e => !(committed.any (fun c => txh c == txh e)))

/-- `EventIndexer.process_block_range` given the outcome of the two
`get_logs` RPC calls: an RPC failure for one contract is caught and
logged, contributing no rows but not aborting the batch; the LoanVault
logs are dispatched on `topic0`; the final `db.commit()` appends all
pending rows. -/
def process_block_range
    (decodeWp : RawLog → Option WorkProofEventRow)
    (decodeLoan : RawLog → Option LoanEventRow)
    (decodeRepay : RawLog → Option RepayEventRow)
    (loanApprovedTopic repaidTopic : String)
    (store : EventStore)
    (wpRes loanRes : Option (List RawLog)) : EventStore :=
  let wpPending := match wpRes with
    | some logs => process_events (fun r => r.txHash) decodeWp store.workproofs logs
    | none => []
  let loanPending := match loanRes with
    | some logs => process_events (fun r => r.txHash) decodeLoan store.loans
        (logs.filter (fun l => l.topic0 == loanApprovedTopic))
    | none => []
  let repayPending := match loanRes with
    | some logs => process_events (fun r => r.txHash) decodeRepay store.repays
        (logs.filter (fun l => !(l.topic0 == loanApprovedTopic) && l.topic0 == repaidTopic))
    | none => []
  { workproofs := store.workproofs ++ wpPending
    loans := store.loans ++ loanPending
    repays := store.repays ++ repayPending }

/-- One successful poll of a block range: both `get_logs` calls return
(the log lists are determined by the range, so replaying a range hands
the same lists back). -/
def pollOnce
    (decodeWp : RawLog → Option WorkProofEventRow)
    (decodeLoan : RawLog → Option LoanEventRow)
    (decodeRepay : RawLog → Option RepayEventRow)
    (loanApprovedTopic repaidTopic : String)
    (store : EventStore)
    (wpLogs loanLogs : List RawLog) : EventStore :=
  process_block_range decodeWp decodeLoan decodeRepay loanApprovedTopic repaidTopic
    store (some wpLogs) (some loanLogs)

/-- Per-chain indexer state: the checkpoint row (`indexer_state`) plus the
event store. -/
structure IndexerSt where
  lastProcessedBlock : ℕ
  store : EventStore
  deriving DecidableEq, Repr

/-- One iteration of `EventIndexer.run`'s `while True` loop.
`currentBlockRes = none` stands for an exception raised by
`self.w3.eth.block_number` (or any step outside `process_block_range`),
which the outer `except` catches, leaving all state unchanged.  When the
current block is obtained and the checkpoint is behind, a chunk of at most
100 blocks is processed and — regardless of the outcome of the log
queries inside `process_block_range`, whose failures are caught there —
`update_last_processed_block(db, to_block)` advances the checkpoint. -/
def run_iteration
    (decodeWp : RawLog → Option WorkProofEventRow)
    (decodeLoan : RawLog → Option LoanEventRow)
    (decodeRepay : RawLog → Option RepayEventRow)
    (loanApprovedTopic repaidTopic : String)
    (st : IndexerSt)
    (currentBlockRes : Option ℕ)
    (wpRes loanRes : Option (List RawLog)) : IndexerSt :=
  match currentBlockRes with
  | none => st
  | some current =>
    if st.lastProcessedBlock < current then
      let fromBlock := st.lastProcessedBlock + 1
      let toBlock := min (fromBlock + 100 - 1) current
      let store := process_block_range decodeWp decodeLoan decodeRepay
        loanApprovedTopic repaidTopic st.store wpRes loanRes
      { lastProcessedBlock := toBlock, store := store }
    else st

/-- The inputs one loop iteration consumes from the outside world. -/
structure IterInput where
  currentBlockRes : Option ℕ
  wpRes : Option (List RawLog)
  loanRes : Option (List RawLog)

/-- A run of the indexer loop over a sequence of iteration inputs. -/
def run_loop
    (decodeWp : RawLog → Option WorkProofEventRow)
    (decodeLoan : RawLog → Option LoanEventRow)
    (decodeRepay : RawLog → Option RepayEventRow)
    (loanApprovedTopic repaidTopic : String)
    (st : IndexerSt) (inputs : List IterInput) : IndexerSt :=
  inputs.foldl
    (fun s inp => run_iteration decodeWp decodeLoan decodeRepay
      loanApprovedTopic repaidTopic s inp.currentBlockRes inp.wpRes inp.loanRes)
    st

/-! ## Offer endpoint entry (`apps/api/routers/ai.py`, `generate_offer`)

The handler lowercases the requested address, then calls
`Web3.to_checksum_address(worker)` — which raises `ValueError` on any
malformed address, surfacing from FastAPI as an HTTP 500 — and only
afterwards runs the `Web3.is_address` guard that raises
`HTTPException(400)`.  Since both share the same validity predicate on a
lowercased string, the 400 branch is unreachable. -/

/-- Hex digit of a lowercased hex string. -/
def isHexLower (c : Char) : Bool := c.isDigit || ('a' ≤ c && c ≤ 'f')

/-- Python `str.lower()` (over the character sequence). -/
def pyLower (s : String) : String := String.mk (s.data.map Char.toLower)

/-- `Web3.is_address` on a lowercased string: `0x` plus 40 hex digits. -/
def is_address (s : String) : Bool :=
  let cs := s.data
  (cs.length = 42) && ((cs.take 2) == ['0', 'x']) && (cs.drop 2).all isHexLower

/-- `Web3.to_checksum_address`: raises `ValueError` (modelled as `Except.error`)
unless the input is a valid address; the checksum casing itself does not
matter for control flow, so the address is returned as-is. -/
def to_checksum_address (s : String) : Except String String :=
  if is_address s then .ok s else .error "ValueError"

/-- How a request to `POST /ai/offer` terminates, as far as validation
goes: `ok` means control reaches the signal computations. -/
inductive HttpOutcome where
  | ok
  | clientError (code : ℕ)
  | serverError
  deriving DecidableEq, Repr

/-- The validation prefix of `generate_offer` (ai.py lines 127–131), in the
code's order: lowercase, `to_checksum_address` (uncaught `ValueError` ⇒
HTTP 500), then the `is_address` check raising `HTTPException(400)`. -/
def offer_request_validation (workerAddress : String) : HttpOutcome :=
  let worker := pyLower workerAddress
  match to_checksum_address worker with
  | .error _ => .serverError
  | .ok _ => if !(is_address worker) then .clientError 400 else .ok

/-! ## fraudFlags bitmask and dynamic credit adjustment (`ai.py`) -/

def FLAG_HARD_BLOCK : ℕ := 1
def FLAG_ANOMALY_SUSPECT : ℕ := 2
def FLAG_WORKPROOF_SUSPECT : ℕ := 4
def FLAG_EARLY_WARNING_HIGH : ℕ := 8
def FLAG_FAIRNESS_REVIEW : ℕ := 16

/-- Step I of `generate_offer`: the `fraudFlags` bitmask computed from the
fraud anomaly score, the workproof-integrity flag score and the
early-warning risk score.  `FLAG_FAIRNESS_REVIEW` is declared but no
branch sets it. -/
def compute_fraud_flags (anomalyScore flagScore riskScore : ℤ) : ℕ :=
  let f0 : ℕ := 0
  let f1 := if anomalyScore ≥ 85 ∨ flagScore ≥ 85 then f0 ||| FLAG_HARD_BLOCK else f0
  let f2 := if anomalyScore ≥ 50 then f1 ||| FLAG_ANOMALY_SUSPECT else f1
  let f3 := if flagScore ≥ 50 then f2 ||| FLAG_WORKPROOF_SUSPECT else f2
  if riskScore ≥ 60 then f3 ||| FLAG_EARLY_WARNING_HIGH else f3

/-- Base credit terms produced by the scoring engine
(`services/scoring.py`, `compute_credit_terms`). -/
structure CreditTerms where
  creditLimit : ℤ
  aprBps : ℤ
  tenureDays : ℤ
  deriving DecidableEq, Repr

/-- Step H of `generate_offer`: the dynamic credit-line adjustment.
Multiplicative factor from forecast confidence / anomaly / integrity /
early-warning tiers, additive APR and tenure adjustments, then the final
clamps `min(3600, max(500, ...))` and `max(7, ...)`. -/
def adjust_offer (base : CreditTerms) (confidence : ℚ)
    (anomalyScore flagScore riskScore : ℤ) : CreditTerms :=
  let factor0 : ℚ := 1
  let factor1 := if confidence ≥ 6/10 then factor0 * (11/10)
    else if confidence < 3/10 then factor0 * (9/10) else factor0
  let factor2 := if anomalyScore ≥ 60 then factor1 * (7/10)
    else if anomalyScore ≥ 30 then factor1 * (9/10) else factor1
  let aprAdj2 : ℤ := if anomalyScore ≥ 60 then 300
    else if anomalyScore ≥ 30 then 150 else 0
  let factor3 := if flagScore ≥ 60 then factor2 * (7/10)
    else if flagScore ≥ 30 then factor2 * (9/10) else factor2
  let factor4 := if riskScore ≥ 60 then factor3 * (6/10)
    else if riskScore ≥ 30 then factor3 * (85/100) else factor3
  let aprAdj : ℤ := if riskScore ≥ 60 then aprAdj2 + 200 else aprAdj2
  let tenureAdj : ℤ := if riskScore ≥ 60 then -7 else 0
  { creditLimit := pyInt ((base.creditLimit : ℚ) * factor4)
    aprBps := min 3600 (max 500 (base.aprBps + aprAdj))
    tenureDays := max 7 (base.tenureDays + tenureAdj) }

/-! ## Feature extraction (`apps/api/services/features.py`)

`get_worker_features(worker, db)` queries the worker's rows and derives a
fixed-shape feature dict.  The embedding takes the query results as
inputs: `workproofs` is the worker's `workproof_events` rows ordered by
`event_timestamp` descending (as the query orders them), `loans` and
`repays` the rows keyed by the borrower.  `now` is the whole-second UTC
timestamp.  The string metadata fields (`worker`, `extractedAt`) are
omitted.  `sqrtFn` models the float square root used for the standard
deviation. -/

/-- A `workproof_events` row as the feature extractor reads it;
`earnedAmount` is the stored decimal string, `none` when `int(...)`
parsing of it would raise. -/
structure WpRow where
  eventTimestamp : ℤ
  workUnits : ℕ
  earnedAmount : Option ℤ
  deriving DecidableEq, Repr

/-- A loan/repay row: only `indexed_at` is consumed (`none` = NULL). -/
structure LedgerRow where
  indexedAt : Option ℤ
  deriving DecidableEq, Repr

/-- Rating band derived in `get_worker_features`:
`min(5, max(1, wp.work_units % 10)) if wp.work_units else 3`. -/
def featureRating (workUnits : ℕ) : ℕ :=
  if workUnits = 0 then 3 else min 5 (max 1 (workUnits % 10))

/-- Earnings band: `min(10, (int(earned)/1e6)/10)`, and `1.0` when the
`int(...)` conversion raises. -/
def earningsBand (earned : Option ℤ) : ℚ :=
  match earned with
  | some e => min 10 (((e : ℚ) / 1000000) / 10)
  | none => 1

/-- Arithmetic mean of a rational list (0 for the empty list, matching the
guarded uses in the source). -/
def listMean (l : List ℚ) : ℚ := if l.length = 0 then 0 else l.sum / l.length

/-- Population variance `sum((x - mean)^2)/len`. -/
def listVariance (l : List ℚ) : ℚ :=
  if l.length = 0 then 0 else
    (l.map (fun x => (x - listMean l) ^ 2)).sum / l.length

/-- The feature dict built by `get_worker_features` (rounded exactly where
the source rounds). -/
structure Features where
  shiftCount7d : ℕ
  shiftCount14d : ℕ
  shiftCount30d : ℕ
  avgRatingBand30d : ℚ
  ratingTrend30d : ℚ
  earningsBandMean30d : ℚ
  earningsBandVol30d : ℚ
  recencyHours : ℚ
  loanCount30d : ℕ
  repayRatio30d : ℚ
  workproofRatePerDay7d : ℚ
  proofsInLast24h : ℕ
  totalWorkProofs : ℕ
  totalLoans : ℕ
  totalRepays : ℕ
  deriving DecidableEq, Repr

/-- `get_worker_features`, translated line by line from
`services/features.py`. -/
def get_worker_features (sqrtFn : ℚ → ℚ) (now : ℤ)
    (workproofs : List WpRow) (loans repays : List LedgerRow) : Features :=
  let ts7d := now - 7 * 86400
  let ts14d := now - 14 * 86400
  let ts30d := now - 30 * 86400
  let ts24h := now - 86400
  let shift7d := workproofs.filter (fun wp => ts7d ≤ wp.eventTimestamp)
  let shift14d := workproofs.filter (fun wp => ts14d ≤ wp.eventTimestamp)
  let shift30d := workproofs.filter (fun wp => ts30d ≤ wp.eventTimestamp)
  let shiftCount7d := shift7d.length
  let ratePerDay7d : ℚ := if shiftCount7d > 0 then (shiftCount7d : ℚ) / 7 else 0
  let recencyHours : ℚ := match workproofs with
    | [] => 999999
    | wp :: _ => ((now : ℚ) - wp.eventTimestamp) / 3600
  let ratings30d : List ℚ := shift30d.map (fun wp => (featureRating wp.workUnits : ℚ))
  let avgRating : ℚ :=
    if ratings30d.length = 0 then 3 else ratings30d.sum / ratings30d.length
  let mid := ratings30d.length / 2
  let ratingTrend : ℚ :=
    if ratings30d.length = 0 then 0
    else if mid > 0 then
      let firstHalf := (ratings30d.drop mid).sum / (ratings30d.drop mid).length
      let secondHalf := (ratings30d.take mid).sum / (ratings30d.take mid).length
      secondHalf - firstHalf
    else 0
  let earnings30d : List ℚ := shift30d.map (fun wp => earningsBand wp.earnedAmount)
  let earningsMean : ℚ := if earnings30d.length = 0 then 0 else listMean earnings30d
  let earningsVol : ℚ :=
    if earnings30d.length ≤ 1 then 0
    else if earningsMean > 0 then sqrtFn (listVariance earnings30d) / earningsMean
    else 0
  let loans30d := loans.filter (fun l => match l.indexedAt with
    | some t => ts30d ≤ t
    | none => false)
  let loanCount30d := loans30d.length
  let repays30d := repays.filter (fun r => match r.indexedAt with
    | some t => ts30d ≤ t
    | none => false)
  let repayCount30d := repays30d.length
  let repayR : ℚ :=
    if loanCount30d > 0 then min 1 ((repayCount30d : ℚ) / loanCount30d) else 1
  let proofs24h := (workproofs.filter (fun wp => ts24h ≤ wp.eventTimestamp)).length
  { shiftCount7d := shiftCount7d
    shiftCount14d := shift14d.length
    shiftCount30d := shift30d.length
    avgRatingBand30d := pyRound 2 avgRating
    ratingTrend30d := pyRound 3 ratingTrend
    earningsBandMean30d := pyRound 2 earningsMean
    earningsBandVol30d := pyRound 3 earningsVol
    recencyHours := pyRound 1 recencyHours
    loanCount30d := loanCount30d
    repayRatio30d := pyRound 2 repayR
    workproofRatePerDay7d := pyRound 2 ratePerDay7d
    proofsInLast24h := proofs24h
    totalWorkProofs := workproofs.length
    totalLoans := loans.length
    totalRepays := repays.length }

/-- A row of `get_workproof_history(worker, days, db)`: the worker's
proofs of the window, ordered by `event_timestamp` ascending. -/
structure HProof where
  proofId : ℕ
  timestamp : ℤ
  workUnits : ℕ
  earnedAmount : Option ℤ
  proofHash : String
  deriving DecidableEq, Repr

/-! ## Fraud anomaly detection (`apps/api/services/fraud.py`)

`compute_anomaly_score` sums six individually-capped rule signals over the
feature dict and the 30-day proof history, then caps the total at 100.
Reason strings follow the source's templates; interpolated numbers are
rendered with `toString` (the claims under proof never inspect the
rendered digits). -/

/-- Rating as fraud.py and workproof_integrity.py derive it:
`min(5, max(1, wp.get("workUnits", 3) % 10))` (no truthiness guard,
unlike features.py). -/
def historyRating (workUnits : ℕ) : ℕ := min 5 (max 1 (workUnits % 10))

/-- Number of consecutive rating jumps exceeding `RATING_JUMP_THRESHOLD = 2`. -/
def ratingJumpCount (ratings : List ℕ) : ℕ :=
  ((ratings.zip ratings.tail).filter (fun p => 2 < Nat.dist p.1 p.2)).length

/-- Signal 1: sudden inactivity after prior activity. -/
def fraud_inactivity_signal (f : Features) : ℤ :=
  if f.recencyHours > 72 ∧ f.totalWorkProofs > 5 then
    min 25 (pyInt ((f.recencyHours - 72) / 24 * 5))
  else 0

/-- Signal 2: proof burst in the last 24 hours. -/
def fraud_burst_signal (f : Features) : ℤ :=
  if f.proofsInLast24h > 10 then min 30 (((f.proofsInLast24h : ℤ) - 10) * 5) else 0

/-- Signal 3: unnatural sustained proof rate over 7 days. -/
def fraud_rate_signal (f : Features) : ℤ :=
  if f.workproofRatePerDay7d > 10 * (7/10) then
    min 20 (pyInt ((f.workproofRatePerDay7d - 10 * (1/2)) * 5))
  else 0

/-- Signal 4: at least two large rating jumps between consecutive proofs. -/
def fraud_rating_jump_signal (hist : List HProof) : ℤ :=
  let jumps := ratingJumpCount (hist.map (fun wp => historyRating wp.workUnits))
  if hist.length ≥ 3 ∧ jumps ≥ 2 then min 20 ((jumps : ℤ) * 7) else 0

/-- Signal 5: loan-frequency burst over 30 days. -/
def fraud_loan_burst_signal (f : Features) : ℤ :=
  if f.loanCount30d > 3 then min 15 (((f.loanCount30d : ℤ) - 3) * 5) else 0

/-- Signal 6: low repay ratio combined with at least two loans. -/
def fraud_low_repay_signal (f : Features) : ℤ :=
  if f.loanCount30d ≥ 2 ∧ f.repayRatio30d < 1/2 then
    min 25 (pyInt ((1 - f.repayRatio30d) * 30))
  else 0

/-- Risk banding shared by fraud.py and workproof_integrity.py:
CRITICAL ≥ 85, HIGH ≥ 60, MEDIUM ≥ 30, else LOW. -/
def riskLevel85 (score : ℤ) : String :=
  if score ≥ 85 then "CRITICAL"
  else if score ≥ 60 then "HIGH"
  else if score ≥ 30 then "MEDIUM"
  else "LOW"

/-- Result of `compute_anomaly_score` (the fields the callers consume). -/
structure FraudResult where
  anomalyScore : ℤ
  riskLevel : String
  reasons : List String
  deriving DecidableEq, Repr

/-- `compute_anomaly_score(worker, db)` given the extracted features and
the 30-day proof history its two sub-calls return. -/
def compute_anomaly_score (f : Features) (hist : List HProof) : FraudResult :=
  let s1 := fraud_inactivity_signal f
  let s2 := fraud_burst_signal f
  let s3 := fraud_rate_signal f
  let s4 := fraud_rating_jump_signal hist
  let s5 := fraud_loan_burst_signal f
  let s6 := fraud_low_repay_signal f
  let score := min 100 (s1 + s2 + s3 + s4 + s5 + s6)
  let jumps := ratingJumpCount (hist.map (fun wp => historyRating wp.workUnits))
  let reasons :=
    (if f.recencyHours > 72 ∧ f.totalWorkProofs > 5 then
      ["Sudden inactivity: " ++ toString (pyInt f.recencyHours) ++ "h since last proof"] else []) ++
    (if f.proofsInLast24h > 10 then
      ["Proof burst: " ++ toString f.proofsInLast24h ++ " proofs in 24h"] else []) ++
    (if f.workproofRatePerDay7d > 10 * (7/10) then
      ["High proof rate: " ++ toString f.workproofRatePerDay7d ++ "/day"] else []) ++
    (if hist.length ≥ 3 ∧ jumps ≥ 2 then
      ["Suspicious rating jumps: " ++ toString jumps ++ " occurrences"] else []) ++
    (if f.loanCount30d > 3 then
      ["High loan frequency: " ++ toString f.loanCount30d ++ " in 30d"] else []) ++
    (if f.loanCount30d ≥ 2 ∧ f.repayRatio30d < 1/2 then
      ["Low repayment ratio: " ++ toString (f.repayRatio30d * 100) ++ "%"] else [])
  { anomalyScore := score
    riskLevel := riskLevel85 score
    reasons := if reasons = [] then ["No anomalies detected"] else reasons }

/-! ## Credit scoring (`apps/api/services/scoring.py`)

`compute_pd` lazily obtains the logistic-regression model: the module
global `_model` is the in-process cache, the pickle file at `MODEL_PATH`
the on-disk copy.  `train_synthetic_model` is deterministic
(`np.random.seed(42)`, `random_state=42`); its result is embedded as an
abstract `CreditModel` value `trained` carrying the model's
`predict_proba(...)[0, 1]` map.  `loadOk`/`saveOk` model the caught
pickle load/save failures. -/

/-- The scoring features of `extract_features_from_events`. -/
structure ScFeatures where
  shift_count_7d : ℕ
  shift_count_30d : ℕ
  avg_rating_band : ℚ
  earnings_consistency : ℚ
  recency_days : ℤ
  deriving DecidableEq, Repr

/-- An event dict as `generate_credit_offer` receives it (the two
builders in ai.py always populate integer timestamp and earned amount). -/
structure EvRow where
  eventTimestamp : ℤ
  earnedAmount : ℤ
  deriving DecidableEq, Repr

/-- `extract_features_from_events(events)` at time `now`. -/
def extract_features_from_events (sqrtFn : ℚ → ℚ) (now : ℤ)
    (events : List EvRow) : ScFeatures :=
  match events with
  | [] =>
    { shift_count_7d := 0, shift_count_30d := 0, avg_rating_band := 5/2
      earnings_consistency := 1/2, recency_days := 30 }
  | e0 :: rest =>
    let timestamps := (e0 :: rest).map (fun e => e.eventTimestamp)
    let earnings : List ℚ := (e0 :: rest).map (fun e => (e.earnedAmount : ℚ))
    let shift7 := (timestamps.filter (fun t => now - 7 * 86400 ≤ t)).length
    let shift30 := (timestamps.filter (fun t => now - 30 * 86400 ≤ t)).length
    let consistency : ℚ :=
      if earnings.length > 1 then
        let meanE := listMean earnings
        if meanE > 0 then
          let cv := sqrtFn (listVariance earnings) / meanE
          max 0 (1 - min cv 1)
        else 1/2
      else 1/2
    let avgEarnings := listMean earnings
    let avgRatingBand : ℚ := min 5 (max 1 (avgEarnings / 100000000))
    let latest := rest.foldl (fun a e => max a e.eventTimestamp) e0.eventTimestamp
    let recencyDays := Int.fdiv (now - latest) 86400
    { shift_count_7d := shift7, shift_count_30d := shift30
      avg_rating_band := avgRatingBand, earnings_consistency := consistency
      recency_days := recencyDays }

/-- The trained classifier, represented by its probability-of-default map
(`model.predict_proba(X)[0, 1]`). -/
structure CreditModel where
  pdFn : ScFeatures → ℚ

/-- Process-level scoring state: the `_model` singleton and the pickle
file at `MODEL_PATH`. -/
structure ScoringProcSt where
  cached : Option CreditModel
  disk : Option CreditModel

/-- `get_or_train_model()`: return the cached model; otherwise load from
disk (a load failure, `loadOk = false`, falls through); otherwise train
and best-effort persist (`saveOk` models the caught save failure). -/
def get_or_train_model (trained : CreditModel) (loadOk saveOk : Bool)
    (s : ScoringProcSt) : CreditModel × ScoringProcSt :=
  match s.cached with
  | some m => (m, s)
  | none =>
    match s.disk with
    | some m =>
      if loadOk then (m, { s with cached := some m })
      else (trained, { cached := some trained
                       disk := if saveOk then some trained else s.disk })
    | none => (trained, { cached := some trained
                          disk := if saveOk then some trained else s.disk })

/-- `compute_pd(features)`: PD scaled to an integer in 0..1,000,000. -/
def compute_pd (trained : CreditModel) (loadOk saveOk : Bool)
    (s : ScoringProcSt) (f : ScFeatures) : ℤ × ScoringProcSt :=
  let r := get_or_train_model trained loadOk saveOk s
  (pyInt (r.1.pdFn f * 1000000), r.2)

/-- `compute_trust_score(features, pd)`: weighted blend scaled to 0..10000. -/
def compute_trust_score (f : ScFeatures) (pd : ℤ) : ℤ :=
  let pdScore : ℚ := 1 - (pd : ℚ) / 1000000
  let activity : ℚ := min 1 ((f.shift_count_30d : ℚ) / 20)
  let rating : ℚ := (f.avg_rating_band - 1) / 4
  let recency : ℚ := max 0 (1 - (f.recency_days : ℚ) / 30)
  pyInt ((4/10 * pdScore + 25/100 * activity + 2/10 * rating + 15/100 * recency) * 10000)

/-- `compute_credit_terms(trust_score, pd, features)`: the three step
tables plus the activity multiplier. -/
def compute_credit_terms (trustScore pd : ℤ) (f : ScFeatures) : CreditTerms :=
  let baseLimit : ℚ :=
    if trustScore ≥ 8000 then 1000
    else if trustScore ≥ 6000 then 500
    else if trustScore ≥ 4000 then 250
    else if trustScore ≥ 2000 then 100
    else 50
  let activityMult : ℚ := min (3/2) (1 + (f.shift_count_30d : ℚ) / 40)
  let creditLimit := pyInt (baseLimit * activityMult * 1000000)
  let pdPct : ℚ := (pd : ℚ) / 10000
  let aprBps : ℤ :=
    if pdPct < 5 then 800
    else if pdPct < 10 then 1200
    else if pdPct < 20 then 1800
    else if pdPct < 40 then 2400
    else 3600
  let tenureDays : ℤ :=
    if trustScore ≥ 7000 then 30
    else if trustScore ≥ 5000 then 21
    else if trustScore ≥ 3000 then 14
    else 7
  { creditLimit := creditLimit, aprBps := aprBps, tenureDays := tenureDays }

/-- The scoring outputs `generate_credit_offer` derives from a feature
vector: PD, trust score and credit terms. -/
structure ScoreOutput where
  pd : ℤ
  trustScore : ℤ
  terms : CreditTerms
  deriving DecidableEq, Repr

/-- The pure part of scoring once a model is in hand: PD, then trust
score, then terms. -/
def score_of_model (m : CreditModel) (f : ScFeatures) : ScoreOutput :=
  let pd := pyInt (m.pdFn f * 1000000)
  let trust := compute_trust_score f pd
  ⟨pd, trust, compute_credit_terms trust pd f⟩

/-- `score(f)`: the feature-vector-to-offer part of
`generate_credit_offer` (PD via the lazily obtained model, then trust
score, then terms), threading the process state. -/
def score (trained : CreditModel) (loadOk saveOk : Bool)
    (s : ScoringProcSt) (f : ScFeatures) : ScoreOutput × ScoringProcSt :=
  let r := compute_pd trained loadOk saveOk s f
  let trust := compute_trust_score f r.1
  (⟨r.1, trust, compute_credit_terms trust r.1 f⟩, r.2)

/-! ## Income forecasting (`apps/api/services/forecasting.py`) -/

/-- Tail of the exponential smoothing recursion, carrying the previous
smoothed value. -/
def expSmoothAux (alpha prev : ℚ) : List ℚ → List ℚ
  | [] => []
  | y :: ys =>
    let s := alpha * y + (1 - alpha) * prev
    s :: expSmoothAux alpha s ys

/-- `exponential_smoothing(data, alpha)`. -/
def exponential_smoothing (alpha : ℚ) : List ℚ → List ℚ
  | [] => []
  | x :: xs => x :: expSmoothAux alpha x xs

/-- `weighted_moving_average(data, window)`: linear weights `1..n` over
the last `window` items. -/
def weighted_moving_average (data : List ℚ) (window : ℕ) : ℚ :=
  if data.length = 0 then 0 else
  let recent := if data.length ≥ window then data.drop (data.length - window) else data
  let weightSum : ℚ := ((List.range recent.length).map (fun i => ((i + 1 : ℕ) : ℚ))).sum
  let weightedSum : ℚ := (recent.enum.map (fun p => p.2 * ((p.1 + 1 : ℕ) : ℚ))).sum
  if weightSum > 0 then weightedSum / weightSum else 0

/-- Calendar-day bucket of a Unix timestamp (the embedding of grouping by
`datetime.fromtimestamp(ts).strftime("%Y-%m-%d")`). -/
def dayKey (ts : ℤ) : ℤ := Int.fdiv ts 86400

/-- Calendar-hour bucket (`strftime("%Y-%m-%d %H")`). -/
def hourKey (ts : ℤ) : ℤ := Int.fdiv ts 3600

/-- Result of `forecast_income` (the fields its callers consume; the two
no-data branches return 0 for the fields they omit). -/
structure ForecastResult where
  expectedIncome14d : ℚ
  expectedIncome30d : ℚ
  avgDailyIncome : ℚ
  incomeVolatility : ℚ
  incomeVolatilityLabel : String
  confidence : ℚ
  confidenceLabel : String
  method : String
  dataPoints : ℕ
  deriving DecidableEq, Repr

/-- The all-zero result both insufficient-data branches return. -/
def noDataForecast (method : String) : ForecastResult :=
  { expectedIncome14d := 0, expectedIncome30d := 0, avgDailyIncome := 0
    incomeVolatility := 0, incomeVolatilityLabel := "UNKNOWN"
    confidence := 0, confidenceLabel := "NO_DATA", method := method
    dataPoints := 0 }

/-- The volatility block of `forecast_income`: coefficient of variation
of the raw daily series, capped at 1. -/
def income_volatility (sqrtFn : ℚ → ℚ) (series : List ℚ) : ℚ :=
  if series.length ≤ 1 then 0
  else if listMean series > 0 then
    min 1 (sqrtFn (listVariance series) / listMean series)
  else 0

/-- `forecast_income(worker, db)` given the worker's features and 60-day
history: daily-earnings series (gaps zero-filled), exponential smoothing,
weighted moving average, 70/30 blend with the feature-based estimate,
coefficient-of-variation volatility and the additive confidence score. -/
def forecast_income (sqrtFn : ℚ → ℚ) (f : Features) (hist : List HProof) :
    ForecastResult :=
  if hist.length = 0 then noDataForecast "no_data" else
  let entries : List (ℤ × ℚ) := hist.filterMap
    (fun wp => wp.earnedAmount.map (fun e => (dayKey wp.timestamp, (e : ℚ) / 1000000)))
  match entries.map Prod.fst with
  | [] => noDataForecast "no_earnings"
  | d :: ds =>
    let minDay := ds.foldl min d
    let maxDay := ds.foldl max d
    let len := (maxDay - minDay).toNat + 1
    let dailySeries : List ℚ := (List.range len).map
      (fun i => ((entries.filter (fun p => p.1 = minDay + i)).map Prod.snd).sum)
    let dataPoints := (dailySeries.filter (fun x => x > 0)).length
    let smoothed := exponential_smoothing (3/10) dailySeries
    let avgDaily : ℚ :=
      if smoothed.length ≥ 7 then weighted_moving_average smoothed 7
      else if smoothed.length = 0 then 0
      else smoothed.sum / smoothed.length
    let featureForecastDaily := f.workproofRatePerDay7d * f.earningsBandMean30d * 10
    let blended := 7/10 * avgDaily + 3/10 * featureForecastDaily
    let vol : ℚ := income_volatility sqrtFn dailySeries
    let volLabel := if vol < 3/10 then "LOW" else if vol < 6/10 then "MEDIUM" else "HIGH"
    let c1 : ℚ :=
      if dataPoints ≥ 20 then 4/10
      else if dataPoints ≥ 10 then 3/10
      else if dataPoints ≥ 5 then 2/10
      else 1/10
    let c2 : ℚ := 3/10 * (1 - vol)
    let c3 : ℚ := if f.recencyHours < 24 then 2/10 else if f.recencyHours < 72 then 1/10 else 0
    let c4 : ℚ := if |f.ratingTrend30d| < 3/10 then 1/10 else 0
    let confidence := min 1 (c1 + c2 + c3 + c4)
    let confLabel :=
      if confidence ≥ 7/10 then "HIGH" else if confidence ≥ 4/10 then "MEDIUM" else "LOW"
    { expectedIncome14d := pyRound 2 (blended * 14)
      expectedIncome30d := pyRound 2 (blended * 30)
      avgDailyIncome := pyRound 2 blended
      incomeVolatility := pyRound 3 vol
      incomeVolatilityLabel := volLabel
      confidence := pyRound 2 confidence
      confidenceLabel := confLabel
      method := "exp_smoothing_wma"
      dataPoints := dataPoints }

/-! ## Default early warning (`apps/api/services/early_warning.py`) -/

/-- Signal 1: work-activity decline vs. the 30-day-derived expectation. -/
def warning_activity_decline_signal (f : Features) : ℤ :=
  let expected7d : ℚ := if f.shiftCount30d > 0 then ((f.shiftCount30d : ℚ) / 30) * 7 else 0
  if expected7d > 0 ∧ (f.shiftCount7d : ℚ) < expected7d * (1/2) then
    let declinePct := pyInt ((1 - (f.shiftCount7d : ℚ) / expected7d) * 100)
    min 25 (pyInt ((declinePct : ℚ) * (3/10)))
  else 0

/-- Signal 2: high fraud anomaly score. -/
def warning_anomaly_signal (anomalyScore : ℤ) : ℤ :=
  if anomalyScore ≥ 60 then min 25 (pyInt ((anomalyScore : ℚ) * (3/10))) else 0

/-- Signal 3: low repayment ratio with at least one loan. -/
def warning_repayment_signal (f : Features) : ℤ :=
  if f.loanCount30d ≥ 1 ∧ f.repayRatio30d < 7/10 then
    min 30 (pyInt ((1 - f.repayRatio30d) * 40))
  else 0

/-- Signal 4: high income volatility. -/
def warning_volatility_signal (vol : ℚ) : ℤ :=
  if vol > 1/2 then min 15 (pyInt (vol * 20)) else 0

/-- Signal 5: low 14-day forecast despite substantial history. -/
def warning_low_forecast_signal (f : Features) (forecast14d : ℚ) : ℤ :=
  if forecast14d < 10 ∧ f.totalWorkProofs > 5 then
    min 15 (pyInt ((10 - forecast14d) * (3/2)))
  else 0

/-- Signal 6: long inactivity (> 168h) despite prior activity. -/
def warning_recency_signal (f : Features) : ℤ :=
  if f.recencyHours > 168 ∧ f.totalWorkProofs > 3 then
    min 10 (pyInt ((f.recencyHours - 168) / 24 * 2))
  else 0

/-- Risk banding of early_warning.py: CRITICAL ≥ 75, HIGH ≥ 50, MEDIUM ≥ 25. -/
def riskLevel75 (score : ℤ) : String :=
  if score ≥ 75 then "CRITICAL"
  else if score ≥ 50 then "HIGH"
  else if score ≥ 25 then "MEDIUM"
  else "LOW"

/-- Result of `compute_early_warning` (fields the callers consume). -/
structure WarningResult where
  riskScore : ℤ
  riskLevel : String
  defaultRiskNext7d : ℚ
  defaultRiskNext14d : ℚ
  reasons : List String
  deriving DecidableEq, Repr

/-- `compute_early_warning(worker, db)` given the results of its three
sub-calls (features, forecast, fraud). -/
def compute_early_warning (f : Features) (forecast : ForecastResult)
    (fraud : FraudResult) : WarningResult :=
  let s1 := warning_activity_decline_signal f
  let s2 := warning_anomaly_signal fraud.anomalyScore
  let s3 := warning_repayment_signal f
  let s4 := warning_volatility_signal forecast.incomeVolatility
  let s5 := warning_low_forecast_signal f forecast.expectedIncome14d
  let s6 := warning_recency_signal f
  let riskScore := min 100 (s1 + s2 + s3 + s4 + s5 + s6)
  let expected7d : ℚ := if f.shiftCount30d > 0 then ((f.shiftCount30d : ℚ) / 30) * 7 else 0
  let reasons :=
    (if expected7d > 0 ∧ (f.shiftCount7d : ℚ) < expected7d * (1/2) then
      ["Work activity down " ++
        toString (pyInt ((1 - (f.shiftCount7d : ℚ) / expected7d) * 100)) ++ "% vs expected"]
     else []) ++
    (if fraud.anomalyScore ≥ 60 then
      ["High anomaly score: " ++ toString fraud.anomalyScore] else []) ++
    (if f.loanCount30d ≥ 1 ∧ f.repayRatio30d < 7/10 then
      ["Low repayment history: " ++ toString (f.repayRatio30d * 100) ++ "%"] else []) ++
    (if forecast.incomeVolatility > 1/2 then
      ["High income volatility: " ++ toString (forecast.incomeVolatility * 100) ++ "%"]
     else []) ++
    (if forecast.expectedIncome14d < 10 ∧ f.totalWorkProofs > 5 then
      ["Low income forecast: $" ++ toString forecast.expectedIncome14d ++ " next 14d"]
     else []) ++
    (if f.recencyHours > 168 ∧ f.totalWorkProofs > 3 then
      ["Inactive for " ++ toString (pyInt (f.recencyHours / 24)) ++ " days"] else [])
  { riskScore := riskScore
    riskLevel := riskLevel75 riskScore
    defaultRiskNext7d := pyRound 3 (min (99/100) ((riskScore : ℚ) / 120))
    defaultRiskNext14d := pyRound 3 (min (99/100) ((riskScore : ℚ) / 150))
    reasons := if reasons = [] then ["No significant risk signals detected"] else reasons }

/-! ## WorkProof integrity (`apps/api/services/workproof_integrity.py`) -/

/-- Stable insertion into a sorted list: the new element goes after every
element it compares `le`-greater-or-equal to (so insertion keeps the
original order of equal keys, like Python's stable `sorted`). -/
def insertSorted {α : Type} (le : α → α → Bool) (x : α) : List α → List α
  | [] => [x]
  | y :: ys => if le y x then y :: insertSorted le x ys else x :: y :: ys

/-- Stable sort (embedding of Python's `sorted`). -/
def stableSort {α : Type} (le : α → α → Bool) (l : List α) : List α :=
  l.foldl (fun acc x => insertSorted le x acc) []

/-- `collections.Counter` over a key list, as (key, count) pairs in
first-occurrence order. -/
def keyCounts {α : Type} [DecidableEq α] (keys : List α) : List (α × ℕ) :=
  keys.dedup.map (fun k => (k, (keys.filter (fun x => x = k)).length))

/-- Result of `check_workproof_integrity` (fields the callers consume;
Python's `list(set(flagged_events))` is embedded as `dedup`, which agrees
up to ordering). -/
structure IntegrityResult where
  flagScore : ℤ
  riskLevel : String
  flags : List String
  eventIds : List ℕ
  proofCount : ℕ
  deriving DecidableEq, Repr

/-- A (proofId, rating, timestamp) triple of check 5. -/
def ratingTriple (wp : HProof) : ℕ × ℕ × ℤ :=
  (wp.proofId, historyRating wp.workUnits, wp.timestamp)

/-- The rating triples of a history, sorted by timestamp (check 5's
`ratings_sorted`). -/
def ratingsSortedByTs (hist : List HProof) : List (ℕ × ℕ × ℤ) :=
  stableSort (fun a b => a.2.2 ≤ b.2.2) (hist.map ratingTriple)

/-- The consecutive pairs of `ratings_sorted` whose rating jump exceeds
`RATING_JUMP_THRESHOLD = 2`; check 5 counts them and flags the later
event of each pair, whether or not the count reaches 3. -/
def ratingJumpPairs (hist : List HProof) : List ((ℕ × ℕ × ℤ) × (ℕ × ℕ × ℤ)) :=
  ((ratingsSortedByTs hist).zip (ratingsSortedByTs hist).tail).filter
    (fun p => 2 < Nat.dist p.1.2.1 p.2.2.1)

/-- Check 1's `high_density_days`: day buckets holding more than
`MAX_PROOFS_PER_DAY = 20` proofs. -/
def integrity_high_density_days (hist : List HProof) : List (ℤ × ℕ) :=
  (keyCounts (hist.map (fun wp => dayKey wp.timestamp))).filter (fun p => p.2 > 20)

/-- Check 1's `density_score`. -/
def integrity_density_score (hist : List HProof) : ℤ :=
  if (integrity_high_density_days hist).length > 0 then
    min 30 (((integrity_high_density_days hist).length : ℤ) * 10 +
      ((integrity_high_density_days hist).map (fun p => (p.2 : ℤ) - 20)).sum)
  else 0

/-- Check 2's `burst_hours`: hour buckets holding more than
`MAX_PROOFS_PER_HOUR = 5` proofs. -/
def integrity_burst_hours (hist : List HProof) : List (ℤ × ℕ) :=
  (keyCounts (hist.map (fun wp => hourKey wp.timestamp))).filter (fun p => p.2 > 5)

/-- Check 2's `burst_score`. -/
def integrity_burst_score (hist : List HProof) : ℤ :=
  if (integrity_burst_hours hist).length > 0 then
    min 20 (((integrity_burst_hours hist).length : ℤ) * 5)
  else 0

/-- Check 3's `sorted_ts`. -/
def integrity_sorted_ts (hist : List HProof) : List ℤ :=
  stableSort (fun a b => a ≤ b) (hist.map (fun wp => wp.timestamp))

/-- Check 3, first half: +15 when the stored order is not chronological. -/
def integrity_ordering_score (hist : List HProof) : ℤ :=
  if hist.map (fun wp => wp.timestamp) ≠ integrity_sorted_ts hist then 15 else 0

/-- Check 3's `fast_submissions`: consecutive sorted timestamps with
`0 < interval < MIN_PROOF_INTERVAL_SECONDS = 60`. -/
def integrity_fast_submissions (hist : List HProof) : ℕ :=
  (((integrity_sorted_ts hist).zip (integrity_sorted_ts hist).tail).filter
    (fun p => 0 < p.2 - p.1 ∧ p.2 - p.1 < 60)).length

/-- Check 3, second half: `fast_score`. -/
def integrity_fast_score (hist : List HProof) : ℤ :=
  if integrity_fast_submissions hist > 0 then
    min 25 ((integrity_fast_submissions hist : ℤ) * 5)
  else 0

/-- Check 4's `duplicates`: proof hashes (truthy ones) used more than once. -/
def integrity_duplicates (hist : List HProof) : List (String × ℕ) :=
  (keyCounts ((hist.filter (fun wp => wp.proofHash ≠ "")).map (fun wp => wp.proofHash))).filter
    (fun p => p.2 > 1)

/-- Check 4's `dup_score`. -/
def integrity_dup_score (hist : List HProof) : ℤ :=
  if (integrity_duplicates hist).length > 0 then
    min 30 (((integrity_duplicates hist).length : ℤ) * 10)
  else 0

/-- Check 4's flagged event ids: every event whose hash is duplicated. -/
def integrity_dup_flagged (hist : List HProof) : List ℕ :=
  (hist.filter
    (fun wp => (integrity_duplicates hist).any (fun p => p.1 == wp.proofHash))).map
    (fun wp => wp.proofId)

/-- Check 5's `manip_score` (only added when at least 3 jumps occur). -/
def integrity_manip_score (hist : List HProof) : ℤ :=
  if (ratingJumpPairs hist).length ≥ 3 then
    min 20 (((ratingJumpPairs hist).length : ℤ) * 4)
  else 0

/-- The capped total `flag_score`. -/
def integrity_flag_score (hist : List HProof) : ℤ :=
  min 100 (integrity_density_score hist + integrity_burst_score hist +
    integrity_ordering_score hist + integrity_fast_score hist +
    integrity_dup_score hist + integrity_manip_score hist)

/-- `check_workproof_integrity(worker, db)` over the 30-day history.
The five checks: per-day density (> 20), per-hour burst (> 5), ordering
anomalies and intervals below 60s, duplicate proof hashes, and ≥ 3 large
consecutive rating jumps.  Note check 5 appends the later event of every
large jump to `flagged_events` unconditionally, while its score and flag
string require at least 3 jumps. -/
def check_workproof_integrity (hist : List HProof) : IntegrityResult :=
  if hist.length = 0 then
    { flagScore := 0, riskLevel := "UNKNOWN", flags := ["No workproofs to analyze"]
      eventIds := [], proofCount := 0 }
  else
    let flags :=
      (if (integrity_high_density_days hist).length > 0 then
        ["Impossible density: " ++ toString (integrity_high_density_days hist).length ++
          " days with >20 proofs"]
       else []) ++
      (if (integrity_burst_hours hist).length > 0 then
        ["Hourly bursts: " ++ toString (integrity_burst_hours hist).length ++
          " hours with >5 proofs"] else []) ++
      (if hist.map (fun wp => wp.timestamp) ≠ integrity_sorted_ts hist then
        ["Timestamp ordering anomaly detected"] else []) ++
      (if integrity_fast_submissions hist > 0 then
        ["Fast submissions: " ++ toString (integrity_fast_submissions hist) ++
          " proofs within 60s of each other"]
       else []) ++
      (if (integrity_duplicates hist).length > 0 then
        ["Duplicate proof hashes: " ++ toString (integrity_duplicates hist).length ++
          " hashes used multiple times"]
       else []) ++
      (if (ratingJumpPairs hist).length ≥ 3 then
        ["Rating manipulation: " ++ toString (ratingJumpPairs hist).length ++
          " large rating jumps detected"]
       else [])
    { flagScore := integrity_flag_score hist
      riskLevel := riskLevel85 (integrity_flag_score hist)
      flags := if flags = [] then ["No integrity issues detected"] else flags
      eventIds := (integrity_dup_flagged hist ++ (ratingJumpPairs hist).map (fun p => p.2.1)).dedup
      proofCount := hist.length }

/-- A concrete two-proof history: ratings 1 then 5 (a single rating jump
of 4 > 2), two days apart, ordered, distinct hashes — no check scores. -/
def demoIntegrityHist : List HProof :=
  [{ proofId := 1, timestamp := 1000000, workUnits := 1, earnedAmount := none
     proofHash := "h1" },
   { proofId := 2, timestamp := 1172800, workUnits := 5, earnedAmount := none
     proofHash := "h2" }]

/-! ## Helper lemmas -/

theorem pyInt_nonneg {q : ℚ} (h : 0 ≤ q) : 0 ≤ pyInt q := by
  unfold pyInt
  rw [if_pos h]
  exact Int.floor_nonneg.mpr h

theorem halfEven_ge_floor (x : ℚ) : ⌊x⌋ ≤ halfEven x := by
  unfold halfEven
  split_ifs with h1 h2
  · exact le_refl _
  · omega
  · rw [round_eq]
    exact Int.floor_le_floor (by linarith)

theorem halfEven_le_ceil (x : ℚ) : halfEven x ≤ ⌈x⌉ := by
  unfold halfEven
  split_ifs with h1 h2
  · exact Int.floor_le_ceil x
  · have hx : (⌊x⌋ : ℚ) < x := by linarith
    have hlt : (⌊x⌋ : ℚ) < (⌈x⌉ : ℚ) := lt_of_lt_of_le hx (Int.le_ceil x)
    have : ⌊x⌋ < ⌈x⌉ := by exact_mod_cast hlt
    omega
  · rw [round_eq]
    have h3 : x + 1/2 ≤ (⌈x⌉ : ℚ) + 1/2 := by
      have := Int.le_ceil x
      linarith
    calc ⌊x + 1/2⌋ ≤ ⌊(⌈x⌉ : ℚ) + 1/2⌋ := Int.floor_le_floor h3
    _ = ⌈x⌉ + ⌊(1/2 : ℚ)⌋ := Int.floor_int_add _ _
    _ = ⌈x⌉ := by norm_num

theorem halfEven_nonneg {x : ℚ} (h : 0 ≤ x) : 0 ≤ halfEven x :=
  le_trans (Int.floor_nonneg.mpr h) (halfEven_ge_floor x)

theorem halfEven_intCast (z : ℤ) : halfEven (z : ℚ) = z := by
  unfold halfEven
  rw [Int.floor_intCast]
  have hz : (z : ℚ) - z = 0 := by ring
  rw [if_neg (by rw [hz]; norm_num)]
  exact round_intCast z

theorem pyRound_nonneg (n : ℕ) {q : ℚ} (h : 0 ≤ q) : 0 ≤ pyRound n q := by
  unfold pyRound
  apply div_nonneg _ (by positivity)
  exact_mod_cast halfEven_nonneg (by positivity)

theorem pyRound_le_one (n : ℕ) {q : ℚ} (h : q ≤ 1) : pyRound n q ≤ 1 := by
  unfold pyRound
  rw [div_le_one (by positivity)]
  have h1 : halfEven (q * 10 ^ n) ≤ ⌈q * 10 ^ n⌉ := halfEven_le_ceil _
  have h2 : ⌈q * 10 ^ n⌉ ≤ (10 ^ n : ℤ) := by
    apply Int.ceil_le.mpr
    push_cast
    have hp : (0 : ℚ) ≤ 10 ^ n := by positivity
    nlinarith
  have : ((halfEven (q * 10 ^ n) : ℤ) : ℚ) ≤ ((10 ^ n : ℤ) : ℚ) := by
    exact_mod_cast le_trans h1 h2
  calc ((halfEven (q * 10 ^ n) : ℤ) : ℚ) ≤ ((10 ^ n : ℤ) : ℚ) := this
  _ = 10 ^ n := by push_cast; ring

theorem pyRound_one (n : ℕ) : pyRound n 1 = 1 := by
  unfold pyRound
  have h : (1 : ℚ) * 10 ^ n = ((10 ^ n : ℤ) : ℚ) := by push_cast; ring
  rw [h, halfEven_intCast]
  rw [show (((10 ^ n : ℤ) : ℚ)) = (10 : ℚ) ^ n by push_cast; ring]
  exact div_self (by positivity)

theorem pyRound_intCast (n : ℕ) (z : ℤ) : pyRound n (z : ℚ) = z := by
  unfold pyRound
  have h : (z : ℚ) * 10 ^ n = ((z * 10 ^ n : ℤ) : ℚ) := by push_cast; ring
  rw [h, halfEven_intCast]
  push_cast
  rw [mul_div_assoc, div_self (by positivity), mul_one]

theorem pyRound_zero (n : ℕ) : pyRound n 0 = 0 := by
  have := pyRound_intCast n 0
  simpa using this

theorem process_events_idem {α : Type} (txh : α → String) (d : RawLog → Option α)
    (c : List α) (logs : List RawLog) :
    process_events txh d (c ++ process_events txh d c logs) logs = [] := by
  unfold process_events
  rw [List.filter_eq_nil_iff]
  intro e he
  by_cases hc : c.any (fun y => txh y == txh e) = true
  · simp [List.any_append, hc]
  · have heP : e ∈ (logs.filterMap d).filter
        (fun x => !(c.any (fun y => txh y == txh x))) := by
      refine List.mem_filter.mpr ⟨he, ?_⟩
      simp only [Bool.not_eq_true'] at *
      simp [Bool.not_eq_true] at hc ⊢
      exact hc
    have hP : ((logs.filterMap d).filter
        (fun x => !(c.any (fun y => txh y == txh x)))).any
          (fun y => txh y == txh e) = true :=
      List.any_eq_true.mpr ⟨e, heP, by simp⟩
    simp [List.any_append, hP]

theorem run_iteration_last_mono
    (dW : RawLog → Option WorkProofEventRow) (dL : RawLog → Option LoanEventRow)
    (dR : RawLog → Option RepayEventRow) (tA tR : String)
    (st : IndexerSt) (current : Option ℕ) (wpRes loanRes : Option (List RawLog)) :
    st.lastProcessedBlock ≤
      (run_iteration dW dL dR tA tR st current wpRes loanRes).lastProcessedBlock := by
  unfold run_iteration
  match current with
  | none => exact le_refl _
  | some cur =>
    simp only []
    split_ifs with h
    · simp only []
      exact le_min (by omega) (by omega)
    · exact le_refl _

/-! ## Claim theorems -/

/-- C4: ingestion is idempotent.  Before inserting any decoded event the
indexer checks the event store for an existing row with the same
transaction hash and skips the insert if one exists
(`process_events`), so replaying the same block range — whose two
`get_logs` calls return the same log lists — through `pollOnce` twice
yields exactly the same event store (hence the same row count and
contents) as processing it once, for every decoder behaviour, topic pair,
prior store and log lists. -/
theorem c4_idempotent_ingestion
    (dW : RawLog → Option WorkProofEventRow) (dL : RawLog → Option LoanEventRow)
    (dR : RawLog → Option RepayEventRow) (tA tR : String)
    (store : EventStore) (wpLogs loanLogs : List RawLog) :
    pollOnce dW dL dR tA tR (pollOnce dW dL dR tA tR store wpLogs loanLogs) wpLogs loanLogs
      = pollOnce dW dL dR tA tR store wpLogs loanLogs := by
  unfold pollOnce process_block_range
  simp only [process_events_idem, List.append_nil]

/-- C5: checkpoint monotonicity.  A single loop iteration never decreases
the per-chain `lastProcessedBlock` (on success it writes
`to_block = min(last + 1 + 100 - 1, current)`, which is at least the
previously stored value; on any caught failure the row is unchanged), and
hence the checkpoint is non-decreasing along any sequence of loop
iterations. -/
theorem c5_checkpoint_monotone :
    (∀ (dW : RawLog → Option WorkProofEventRow) (dL : RawLog → Option LoanEventRow)
      (dR : RawLog → Option RepayEventRow) (tA tR : String)
      (st : IndexerSt) (current : Option ℕ) (wpRes loanRes : Option (List RawLog)),
      st.lastProcessedBlock ≤
        (run_iteration dW dL dR tA tR st current wpRes loanRes).lastProcessedBlock)
    ∧ (∀ (dW : RawLog → Option WorkProofEventRow) (dL : RawLog → Option LoanEventRow)
      (dR : RawLog → Option RepayEventRow) (tA tR : String)
      (st : IndexerSt) (inputs : List IterInput),
      st.lastProcessedBlock ≤ (run_loop dW dL dR tA tR st inputs).lastProcessedBlock) := by
  constructor
  · exact run_iteration_last_mono
  · intro dW dL dR tA tR st inputs
    induction inputs generalizing st with
    | nil => exact le_refl _
    | cons i is ih =>
      exact le_trans (run_iteration_last_mono dW dL dR tA tR st
        i.currentBlockRes i.wpRes i.loanRes) (ih _)

/-- C1 counterexample: with checkpoint 0, current block 50 and both
`get_logs` RPC calls failing, the failures are caught inside
`process_block_range` and the iteration still advances the checkpoint to
50 while no event of blocks 1–50 has been stored — so an RPC log-query
failure does advance the checkpoint past unprocessed blocks, and the
chunk is not retried on the next iteration. -/
theorem c1_counterexample :
    (run_iteration (fun _ => none) (fun _ => none) (fun _ => none) "loanTopic" "repaidTopic"
        ⟨0, emptyStore⟩ (some 50) none none).lastProcessedBlock = 50
    ∧ (run_iteration (fun _ => none) (fun _ => none) (fun _ => none) "loanTopic" "repaidTopic"
        ⟨0, emptyStore⟩ (some 50) none none).store = emptyStore
    ∧ (50 : ℕ) ≠ 0 := by
  refine ⟨rfl, rfl, by omega⟩

/-- C1 (amended): an RPC log-query failure for a chunk is caught and
logged inside `process_block_range`, which returns normally, and the main
loop then advances the checkpoint to the chunk's `to_block`
unconditionally — the chunk is skipped, not retried.  Only an exception
raised outside `process_block_range` (e.g. fetching the current block
number) leaves the whole iteration state unchanged, to be retried on the
next loop tick. -/
theorem c1_amended :
    (∀ (dW : RawLog → Option WorkProofEventRow) (dL : RawLog → Option LoanEventRow)
      (dR : RawLog → Option RepayEventRow) (tA tR : String)
      (st : IndexerSt) (cur : ℕ) (wpRes loanRes : Option (List RawLog)),
      st.lastProcessedBlock < cur →
      (run_iteration dW dL dR tA tR st (some cur) wpRes loanRes).lastProcessedBlock
        = min (st.lastProcessedBlock + 100) cur)
    ∧ (∀ (dW : RawLog → Option WorkProofEventRow) (dL : RawLog → Option LoanEventRow)
      (dR : RawLog → Option RepayEventRow) (tA tR : String)
      (st : IndexerSt) (wpRes loanRes : Option (List RawLog)),
      run_iteration dW dL dR tA tR st none wpRes loanRes = st) := by
  constructor
  · intro dW dL dR tA tR st cur wpRes loanRes h
    unfold run_iteration
    simp only [if_pos h]
    omega
  · intro dW dL dR tA tR st wpRes loanRes
    rfl

/-- Witness for C1 (amended): both parts applied at concrete inputs. -/
theorem c1_amended_witness :
    (run_iteration (fun _ => none) (fun _ => none) (fun _ => none) "loanTopic" "repaidTopic"
        ⟨0, emptyStore⟩ (some 50) none none).lastProcessedBlock = min 100 50
    ∧ run_iteration (fun _ => none) (fun _ => none) (fun _ => none) "loanTopic" "repaidTopic"
        ⟨3, emptyStore⟩ none none none = ⟨3, emptyStore⟩ :=
  ⟨c1_amended.1 (fun _ => none) (fun _ => none) (fun _ => none) "loanTopic" "repaidTopic"
      ⟨0, emptyStore⟩ 50 none none (by decide),
   c1_amended.2 (fun _ => none) (fun _ => none) (fun _ => none) "loanTopic" "repaidTopic"
      ⟨3, emptyStore⟩ none none⟩

/-- C6: the offer endpoint rejects a malformed worker address before any
signal computation runs — but not with a client error.  The code calls
`Web3.to_checksum_address` (which raises `ValueError`, surfacing as HTTP
500) before the `Web3.is_address` guard, so the `HTTPException(400)`
branch is unreachable: no input whatsoever produces the 4xx rejection,
and every malformed (lowercased) address produces a server error instead
of reaching the signal computations. -/
theorem c6_malformed_address_is_server_error :
    offer_request_validation "not-an-address" = HttpOutcome.serverError
    ∧ (∀ s : String, offer_request_validation s ≠ HttpOutcome.clientError 400)
    ∧ (∀ s : String, is_address (pyLower s) = false →
        offer_request_validation s = HttpOutcome.serverError) := by
  refine ⟨by decide, ?_, ?_⟩
  · intro s
    unfold offer_request_validation to_checksum_address
    by_cases h : is_address (pyLower s) <;> simp [h]
  · intro s h
    unfold offer_request_validation to_checksum_address
    simp [h]

/-- Witness for C6: the malformed-address path evaluated at a concrete
request body. -/
theorem c6_malformed_address_is_server_error_witness :
    offer_request_validation "0x12" = HttpOutcome.serverError :=
  c6_malformed_address_is_server_error.2.2 "0x12" (by decide)

/-- C2: the fraudFlags bitmask.  For every combination of signal scores,
HARD_BLOCK (bit value 1) is set iff anomaly ≥ 85 or integrity ≥ 85,
ANOMALY_SUSPECT (2) iff anomaly ≥ 50, WORKPROOF_SUSPECT (4) iff
integrity ≥ 50, EARLY_WARNING_HIGH (8) iff early-warning risk ≥ 60, and
FAIRNESS_REVIEW (16) is never set; in particular anomaly 90 with
integrity 40 yields HARD_BLOCK and ANOMALY_SUSPECT set and
WORKPROOF_SUSPECT unset. -/
theorem c2_fraud_flags_bitmask :
    ∀ a i r : ℤ,
      ((compute_fraud_flags a i r).testBit 0 ↔ (a ≥ 85 ∨ i ≥ 85))
      ∧ ((compute_fraud_flags a i r).testBit 1 ↔ a ≥ 50)
      ∧ ((compute_fraud_flags a i r).testBit 2 ↔ i ≥ 50)
      ∧ ((compute_fraud_flags a i r).testBit 3 ↔ r ≥ 60)
      ∧ (compute_fraud_flags a i r).testBit 4 = false
      ∧ (compute_fraud_flags 90 40 r).testBit 0 = true
      ∧ (compute_fraud_flags 90 40 r).testBit 1 = true
      ∧ (compute_fraud_flags 90 40 r).testBit 2 = false := by
  intro a i r
  by_cases h1 : (a ≥ 85 ∨ i ≥ 85) <;> by_cases h2 : a ≥ 50 <;>
    by_cases h3 : i ≥ 50 <;> by_cases h4 : r ≥ 60 <;>
    simp only [compute_fraud_flags, FLAG_HARD_BLOCK, FLAG_ANOMALY_SUSPECT,
      FLAG_WORKPROOF_SUSPECT, FLAG_EARLY_WARNING_HIGH, h1, h2, h3, h4,
      if_true, if_false, iff_true, iff_false, eq_self_iff_true] <;>
    norm_num <;> decide

theorem gotm_cached_eq (trained : CreditModel) (lo so : Bool) (s : ScoringProcSt) :
    (get_or_train_model trained lo so s).2.cached
      = some (get_or_train_model trained lo so s).1 := by
  rcases s with ⟨cached, disk⟩
  cases cached with
  | some m => rfl
  | none =>
    cases disk with
    | some m => cases lo <;> rfl
    | none => rfl

theorem gotm_hit (trained : CreditModel) (lo so : Bool) (s : ScoringProcSt)
    (m : CreditModel) (h : s.cached = some m) :
    get_or_train_model trained lo so s = (m, s) := by
  unfold get_or_train_model
  rw [h]

/-- C8: score determinism.  Scoring an identical feature vector twice in
a row, with the same (deterministically seeded) trained model available,
returns identical PD, trust score and credit terms, and the second call
leaves the process state — which consists only of the lazily cached
model and its on-disk copy — completely unchanged: the first call is the
only one that can mutate the cache. -/
theorem score_eq (trained : CreditModel) (lo so : Bool) (st : ScoringProcSt)
    (f : ScFeatures) :
    score trained lo so st f
      = (score_of_model (get_or_train_model trained lo so st).1 f,
         (get_or_train_model trained lo so st).2) := rfl

/-- C8: score determinism.  Scoring an identical feature vector twice in
a row, with the same (deterministically seeded) trained model available,
returns identical PD, trust score and credit terms, and the second call
leaves the process state — which consists only of the lazily cached
model and its on-disk pickle copy — completely unchanged: only the first
call can mutate the cache. -/
theorem c8_score_deterministic
    (trained : CreditModel) (loadOk saveOk : Bool) (s : ScoringProcSt) (f : ScFeatures) :
    score trained loadOk saveOk (score trained loadOk saveOk s f).2 f
      = score trained loadOk saveOk s f := by
  rw [score_eq trained loadOk saveOk s f,
      score_eq trained loadOk saveOk (get_or_train_model trained loadOk saveOk s).2 f,
      gotm_hit trained loadOk saveOk _ _ (gotm_cached_eq trained loadOk saveOk s)]

theorem fraud_inactivity_signal_nonneg (f : Features) : 0 ≤ fraud_inactivity_signal f := by
  unfold fraud_inactivity_signal
  split_ifs with h
  · refine le_min (by norm_num) (pyInt_nonneg ?_)
    have h1 : (0 : ℚ) ≤ f.recencyHours - 72 := by linarith [h.1]
    have h2 : (0 : ℚ) ≤ (f.recencyHours - 72) / 24 := div_nonneg h1 (by norm_num)
    exact mul_nonneg h2 (by norm_num)
  · exact le_refl 0

theorem fraud_burst_signal_nonneg (f : Features) : 0 ≤ fraud_burst_signal f := by
  unfold fraud_burst_signal
  split_ifs with h
  · refine le_min (by norm_num) ?_
    omega
  · exact le_refl 0

theorem fraud_rate_signal_nonneg (f : Features) : 0 ≤ fraud_rate_signal f := by
  unfold fraud_rate_signal
  split_ifs with h
  · refine le_min (by norm_num) (pyInt_nonneg ?_)
    have h1 : (0 : ℚ) ≤ f.workproofRatePerDay7d - 10 * (1/2) := by linarith
    exact mul_nonneg h1 (by norm_num)
  · exact le_refl 0

theorem fraud_rating_jump_signal_nonneg (hist : List HProof) :
    0 ≤ fraud_rating_jump_signal hist := by
  unfold fraud_rating_jump_signal
  dsimp only
  split_ifs with h
  · refine le_min (by norm_num) ?_
    positivity
  · exact le_refl 0

theorem fraud_loan_burst_signal_nonneg (f : Features) : 0 ≤ fraud_loan_burst_signal f := by
  unfold fraud_loan_burst_signal
  split_ifs with h
  · refine le_min (by norm_num) ?_
    omega
  · exact le_refl 0

theorem fraud_low_repay_signal_nonneg (f : Features) : 0 ≤ fraud_low_repay_signal f := by
  unfold fraud_low_repay_signal
  split_ifs with h
  · refine le_min (by norm_num) (pyInt_nonneg ?_)
    have h1 : (0 : ℚ) ≤ 1 - f.repayRatio30d := by linarith [h.2]
    exact mul_nonneg h1 (by norm_num)
  · exact le_refl 0

theorem anomalyScore_eq (f : Features) (hist : List HProof) :
    (compute_anomaly_score f hist).anomalyScore
      = min 100 (fraud_inactivity_signal f + fraud_burst_signal f + fraud_rate_signal f +
          fraud_rating_jump_signal hist + fraud_loan_burst_signal f +
          fraud_low_repay_signal f) := rfl

theorem warning_activity_decline_signal_nonneg (f : Features) :
    0 ≤ warning_activity_decline_signal f := by
  unfold warning_activity_decline_signal
  dsimp only
  set e : ℚ := if f.shiftCount30d > 0 then ((f.shiftCount30d : ℚ) / 30) * 7 else 0 with he
  split_ifs with h
  · refine le_min (by norm_num) (pyInt_nonneg ?_)
    have hratio : ((f.shiftCount7d : ℚ)) / e < 1/2 := by
      rw [div_lt_iff₀ h.1]
      linarith [h.2]
    have hdp : (0 : ℚ) ≤ (1 - (f.shiftCount7d : ℚ) / e) * 100 := by nlinarith
    have := pyInt_nonneg hdp
    have : (0 : ℚ) ≤ ((pyInt ((1 - (f.shiftCount7d : ℚ) / e) * 100) : ℤ) : ℚ) := by
      exact_mod_cast this
    exact mul_nonneg this (by norm_num)
  · exact le_refl 0

theorem warning_anomaly_signal_nonneg (a : ℤ) : 0 ≤ warning_anomaly_signal a := by
  unfold warning_anomaly_signal
  split_ifs with h
  · refine le_min (by norm_num) (pyInt_nonneg ?_)
    have : (0 : ℚ) ≤ (a : ℚ) := by exact_mod_cast le_trans (by norm_num) h
    exact mul_nonneg this (by norm_num)
  · exact le_refl 0

theorem warning_repayment_signal_nonneg (f : Features) : 0 ≤ warning_repayment_signal f := by
  unfold warning_repayment_signal
  split_ifs with h
  · refine le_min (by norm_num) (pyInt_nonneg ?_)
    have h1 : (0 : ℚ) ≤ 1 - f.repayRatio30d := by linarith [h.2]
    exact mul_nonneg h1 (by norm_num)
  · exact le_refl 0

theorem warning_volatility_signal_nonneg (v : ℚ) : 0 ≤ warning_volatility_signal v := by
  unfold warning_volatility_signal
  split_ifs with h
  · refine le_min (by norm_num) (pyInt_nonneg ?_)
    have h1 : (0 : ℚ) ≤ v := by linarith
    exact mul_nonneg h1 (by norm_num)
  · exact le_refl 0

theorem warning_low_forecast_signal_nonneg (f : Features) (fc : ℚ) :
    0 ≤ warning_low_forecast_signal f fc := by
  unfold warning_low_forecast_signal
  split_ifs with h
  · refine le_min (by norm_num) (pyInt_nonneg ?_)
    have h1 : (0 : ℚ) ≤ 10 - fc := by linarith [h.1]
    exact mul_nonneg h1 (by norm_num)
  · exact le_refl 0

theorem warning_recency_signal_nonneg (f : Features) : 0 ≤ warning_recency_signal f := by
  unfold warning_recency_signal
  split_ifs with h
  · refine le_min (by norm_num) (pyInt_nonneg ?_)
    have h1 : (0 : ℚ) ≤ f.recencyHours - 168 := by linarith [h.1]
    have h2 : (0 : ℚ) ≤ (f.recencyHours - 168) / 24 := div_nonneg h1 (by norm_num)
    exact mul_nonneg h2 (by norm_num)
  · exact le_refl 0

theorem riskScore_eq (f : Features) (forecast : ForecastResult) (fraud : FraudResult) :
    (compute_early_warning f forecast fraud).riskScore
      = min 100 (warning_activity_decline_signal f + warning_anomaly_signal fraud.anomalyScore +
          warning_repayment_signal f + warning_volatility_signal forecast.incomeVolatility +
          warning_low_forecast_signal f forecast.expectedIncome14d +
          warning_recency_signal f) := rfl

theorem integrity_density_score_nonneg (hist : List HProof) :
    0 ≤ integrity_density_score hist := by
  unfold integrity_density_score
  split_ifs with h
  · refine le_min (by norm_num) (add_nonneg (by positivity) (List.sum_nonneg ?_))
    intro x hx
    obtain ⟨p, hp, rfl⟩ := List.mem_map.mp hx
    have := (List.mem_filter.mp hp).2
    simp only [decide_eq_true_eq] at this
    omega
  · exact le_refl 0

theorem integrity_burst_score_nonneg (hist : List HProof) :
    0 ≤ integrity_burst_score hist := by
  unfold integrity_burst_score
  split_ifs with h
  · exact le_min (by norm_num) (by positivity)
  · exact le_refl 0

theorem integrity_ordering_score_nonneg (hist : List HProof) :
    0 ≤ integrity_ordering_score hist := by
  unfold integrity_ordering_score
  split_ifs <;> norm_num

theorem integrity_fast_score_nonneg (hist : List HProof) :
    0 ≤ integrity_fast_score hist := by
  unfold integrity_fast_score
  split_ifs with h
  · exact le_min (by norm_num) (by positivity)
  · exact le_refl 0

theorem integrity_dup_score_nonneg (hist : List HProof) :
    0 ≤ integrity_dup_score hist := by
  unfold integrity_dup_score
  split_ifs with h
  · exact le_min (by norm_num) (by positivity)
  · exact le_refl 0

theorem integrity_manip_score_nonneg (hist : List HProof) :
    0 ≤ integrity_manip_score hist := by
  unfold integrity_manip_score
  split_ifs with h
  · exact le_min (by norm_num) (by positivity)
  · exact le_refl 0

theorem income_volatility_nonneg (sqrtFn : ℚ → ℚ) (hs : ∀ x, 0 ≤ sqrtFn x)
    (series : List ℚ) : 0 ≤ income_volatility sqrtFn series := by
  unfold income_volatility
  split_ifs with h1 h2
  · exact le_refl 0
  · exact le_min (by norm_num) (div_nonneg (hs _) (le_of_lt h2))
  · exact le_refl 0

theorem income_volatility_le_one (sqrtFn : ℚ → ℚ) (series : List ℚ) :
    income_volatility sqrtFn series ≤ 1 := by
  unfold income_volatility
  split_ifs with h1 h2
  · norm_num
  · exact min_le_left _ _
  · norm_num

theorem integrity_flag_score_bounds (hist : List HProof) :
    0 ≤ integrity_flag_score hist ∧ integrity_flag_score hist ≤ 100 := by
  constructor
  · refine le_min (by norm_num) ?_
    have h1 := integrity_density_score_nonneg hist
    have h2 := integrity_burst_score_nonneg hist
    have h3 := integrity_ordering_score_nonneg hist
    have h4 := integrity_fast_score_nonneg hist
    have h5 := integrity_dup_score_nonneg hist
    have h6 := integrity_manip_score_nonneg hist
    linarith
  · exact min_le_left _ _

theorem compute_credit_terms_creditLimit_nonneg (t pd : ℤ) (f : ScFeatures) :
    0 ≤ (compute_credit_terms t pd f).creditLimit := by
  unfold compute_credit_terms
  refine pyInt_nonneg (mul_nonneg (mul_nonneg ?_ ?_) (by norm_num))
  · split_ifs <;> norm_num
  · refine le_min (by norm_num) ?_
    positivity

/-- C3: bounded outputs.  For every input, the fraud anomaly score, the
integrity flag score and the early-warning risk score lie in [0, 100];
the forecast income volatility lies in [0, 1]; and, whatever its base
terms and adjustment inputs, the final offer's aprBps is clamped to
[500, 3600], its tenureDays to at least 7, and its credit limit is never
negative. -/
theorem c3_bounded_outputs :
    (∀ (f : Features) (hist : List HProof),
      0 ≤ (compute_anomaly_score f hist).anomalyScore
      ∧ (compute_anomaly_score f hist).anomalyScore ≤ 100)
    ∧ (∀ hist : List HProof,
      0 ≤ (check_workproof_integrity hist).flagScore
      ∧ (check_workproof_integrity hist).flagScore ≤ 100)
    ∧ (∀ (f : Features) (forecast : ForecastResult) (fraud : FraudResult),
      0 ≤ (compute_early_warning f forecast fraud).riskScore
      ∧ (compute_early_warning f forecast fraud).riskScore ≤ 100)
    ∧ (∀ sqrtFn : ℚ → ℚ, (∀ x, 0 ≤ sqrtFn x) →
      ∀ (f : Features) (hist : List HProof),
      0 ≤ (forecast_income sqrtFn f hist).incomeVolatility
      ∧ (forecast_income sqrtFn f hist).incomeVolatility ≤ 1)
    ∧ (∀ (trust pd : ℤ) (scf : ScFeatures) (conf : ℚ) (a i r : ℤ),
      500 ≤ (adjust_offer (compute_credit_terms trust pd scf) conf a i r).aprBps
      ∧ (adjust_offer (compute_credit_terms trust pd scf) conf a i r).aprBps ≤ 3600
      ∧ 7 ≤ (adjust_offer (compute_credit_terms trust pd scf) conf a i r).tenureDays
      ∧ 0 ≤ (adjust_offer (compute_credit_terms trust pd scf) conf a i r).creditLimit) := by
  refine ⟨?_, ?_, ?_, ?_, ?_⟩
  · intro f hist
    rw [anomalyScore_eq]
    constructor
    · refine le_min (by norm_num) ?_
      have h1 := fraud_inactivity_signal_nonneg f
      have h2 := fraud_burst_signal_nonneg f
      have h3 := fraud_rate_signal_nonneg f
      have h4 := fraud_rating_jump_signal_nonneg hist
      have h5 := fraud_loan_burst_signal_nonneg f
      have h6 := fraud_low_repay_signal_nonneg f
      linarith
    · exact min_le_left _ _
  · intro hist
    rcases hist with _ | ⟨w, ws⟩
    · exact ⟨le_refl 0, by decide⟩
    · exact integrity_flag_score_bounds (w :: ws)
  · intro f forecast fraud
    rw [riskScore_eq]
    constructor
    · refine le_min (by norm_num) ?_
      have h1 := warning_activity_decline_signal_nonneg f
      have h2 := warning_anomaly_signal_nonneg fraud.anomalyScore
      have h3 := warning_repayment_signal_nonneg f
      have h4 := warning_volatility_signal_nonneg forecast.incomeVolatility
      have h5 := warning_low_forecast_signal_nonneg f forecast.expectedIncome14d
      have h6 := warning_recency_signal_nonneg f
      linarith
    · exact min_le_left _ _
  · intro sqrtFn hs f hist
    rcases hist with _ | ⟨w, ws⟩
    · exact ⟨le_refl 0, (by norm_num : (0 : ℚ) ≤ 1)⟩
    · show 0 ≤ (forecast_income sqrtFn f (w :: ws)).incomeVolatility
        ∧ (forecast_income sqrtFn f (w :: ws)).incomeVolatility ≤ 1
      unfold forecast_income
      rw [if_neg (by simp)]
      dsimp only
      split
      · exact ⟨le_refl 0, (by norm_num : (0 : ℚ) ≤ 1)⟩
      · exact ⟨pyRound_nonneg 3 (income_volatility_nonneg sqrtFn hs _),
          pyRound_le_one 3 (income_volatility_le_one sqrtFn _)⟩
  · intro trust pd scf conf a i r
    unfold adjust_offer
    dsimp only
    refine ⟨le_min (by norm_num) (le_max_left _ _), min_le_left _ _, le_max_left _ _, ?_⟩
    apply pyInt_nonneg
    refine mul_nonneg ?_ ?_
    · exact_mod_cast compute_credit_terms_creditLimit_nonneg trust pd scf
    · split_ifs <;> norm_num

/-- Witness for C3: the bounds evaluated at concrete inputs (the all-zero
feature vector, the empty history, the zero square root model, and
all-zero adjustment inputs). -/
theorem c3_bounded_outputs_witness :
    (0 ≤ (compute_anomaly_score ⟨0, 0, 0, 0, 0, 0, 0, 0, 0, 0, 0, 0, 0, 0, 0⟩ []).anomalyScore
      ∧ (compute_anomaly_score ⟨0, 0, 0, 0, 0, 0, 0, 0, 0, 0, 0, 0, 0, 0, 0⟩ []).anomalyScore ≤ 100)
    ∧ (0 ≤ (check_workproof_integrity []).flagScore
      ∧ (check_workproof_integrity []).flagScore ≤ 100)
    ∧ (0 ≤ (compute_early_warning ⟨0, 0, 0, 0, 0, 0, 0, 0, 0, 0, 0, 0, 0, 0, 0⟩
          (noDataForecast "no_data") ⟨0, "LOW", []⟩).riskScore
      ∧ (compute_early_warning ⟨0, 0, 0, 0, 0, 0, 0, 0, 0, 0, 0, 0, 0, 0, 0⟩
          (noDataForecast "no_data") ⟨0, "LOW", []⟩).riskScore ≤ 100)
    ∧ (0 ≤ (forecast_income (fun _ => 0) ⟨0, 0, 0, 0, 0, 0, 0, 0, 0, 0, 0, 0, 0, 0, 0⟩ []).incomeVolatility
      ∧ (forecast_income (fun _ => 0) ⟨0, 0, 0, 0, 0, 0, 0, 0, 0, 0, 0, 0, 0, 0, 0⟩ []).incomeVolatility ≤ 1)
    ∧ (500 ≤ (adjust_offer (compute_credit_terms 0 0 ⟨0, 0, 0, 0, 0⟩) 0 0 0 0).aprBps
      ∧ (adjust_offer (compute_credit_terms 0 0 ⟨0, 0, 0, 0, 0⟩) 0 0 0 0).aprBps ≤ 3600
      ∧ 7 ≤ (adjust_offer (compute_credit_terms 0 0 ⟨0, 0, 0, 0, 0⟩) 0 0 0 0).tenureDays
      ∧ 0 ≤ (adjust_offer (compute_credit_terms 0 0 ⟨0, 0, 0, 0, 0⟩) 0 0 0 0).creditLimit) :=
  ⟨c3_bounded_outputs.1 ⟨0, 0, 0, 0, 0, 0, 0, 0, 0, 0, 0, 0, 0, 0, 0⟩ [],
   c3_bounded_outputs.2.1 [],
   c3_bounded_outputs.2.2.1 ⟨0, 0, 0, 0, 0, 0, 0, 0, 0, 0, 0, 0, 0, 0, 0⟩
     (noDataForecast "no_data") ⟨0, "LOW", []⟩,
   c3_bounded_outputs.2.2.2.1 (fun _ => 0) (fun _ => le_refl 0)
     ⟨0, 0, 0, 0, 0, 0, 0, 0, 0, 0, 0, 0, 0, 0, 0⟩ [],
   c3_bounded_outputs.2.2.2.2 0 0 ⟨0, 0, 0, 0, 0⟩ 0 0 0 0⟩

/-- C7: zero-history safety.  For a worker with no events: the scoring
feature extractor returns the fully-populated fixed-shape vector with all
counts 0, default earnings consistency 0.5 and the 30-day recency
sentinel; the forecaster returns the all-zero result labeled NO_DATA; the
integrity checker returns score 0 with level UNKNOWN; the behavioural
feature dict is fully populated with all counts 0 (its recency sentinel
being 999999 hours); and the fraud detector and early-warning model
return score 0 with LOW risk and their documented default reason. -/
theorem c7_zero_history_safety :
    (∀ (sqrtFn : ℚ → ℚ) (now : ℤ),
      extract_features_from_events sqrtFn now []
        = { shift_count_7d := 0, shift_count_30d := 0, avg_rating_band := 5/2
            earnings_consistency := 1/2, recency_days := 30 })
    ∧ (∀ (sqrtFn : ℚ → ℚ) (f : Features),
        forecast_income sqrtFn f [] = noDataForecast "no_data")
    ∧ noDataForecast "no_data"
        = { expectedIncome14d := 0, expectedIncome30d := 0, avgDailyIncome := 0
            incomeVolatility := 0, incomeVolatilityLabel := "UNKNOWN", confidence := 0
            confidenceLabel := "NO_DATA", method := "no_data", dataPoints := 0 }
    ∧ check_workproof_integrity []
        = { flagScore := 0, riskLevel := "UNKNOWN", flags := ["No workproofs to analyze"]
            eventIds := [], proofCount := 0 }
    ∧ (∀ (sqrtFn : ℚ → ℚ) (now : ℤ),
        get_worker_features sqrtFn now [] [] []
          = { shiftCount7d := 0, shiftCount14d := 0, shiftCount30d := 0
              avgRatingBand30d := 3, ratingTrend30d := 0, earningsBandMean30d := 0
              earningsBandVol30d := 0, recencyHours := 999999, loanCount30d := 0
              repayRatio30d := 1, workproofRatePerDay7d := 0, proofsInLast24h := 0
              totalWorkProofs := 0, totalLoans := 0, totalRepays := 0 })
    ∧ compute_anomaly_score
        { shiftCount7d := 0, shiftCount14d := 0, shiftCount30d := 0
          avgRatingBand30d := 3, ratingTrend30d := 0, earningsBandMean30d := 0
          earningsBandVol30d := 0, recencyHours := 999999, loanCount30d := 0
          repayRatio30d := 1, workproofRatePerDay7d := 0, proofsInLast24h := 0
          totalWorkProofs := 0, totalLoans := 0, totalRepays := 0 } []
        = { anomalyScore := 0, riskLevel := "LOW", reasons := ["No anomalies detected"] }
    ∧ compute_early_warning
        { shiftCount7d := 0, shiftCount14d := 0, shiftCount30d := 0
          avgRatingBand30d := 3, ratingTrend30d := 0, earningsBandMean30d := 0
          earningsBandVol30d := 0, recencyHours := 999999, loanCount30d := 0
          repayRatio30d := 1, workproofRatePerDay7d := 0, proofsInLast24h := 0
          totalWorkProofs := 0, totalLoans := 0, totalRepays := 0 }
        (noDataForecast "no_data")
        { anomalyScore := 0, riskLevel := "LOW", reasons := ["No anomalies detected"] }
        = { riskScore := 0, riskLevel := "LOW", defaultRiskNext7d := 0
            defaultRiskNext14d := 0
            reasons := ["No significant risk signals detected"] } := by
  refine ⟨fun _ _ => rfl, fun _ _ => rfl, rfl, rfl, fun _ _ => ?_, ?_, ?_⟩
  · unfold get_worker_features
    norm_num [pyRound_intCast, pyRound_zero, pyRound_one]
    constructor
    · have h := pyRound_intCast 2 3
      norm_num at h
      exact h
    · have h := pyRound_intCast 1 999999
      norm_num at h
      exact h
  · unfold compute_anomaly_score fraud_inactivity_signal fraud_burst_signal
      fraud_rate_signal fraud_rating_jump_signal fraud_loan_burst_signal
      fraud_low_repay_signal ratingJumpCount riskLevel85
    norm_num [min_def]
  · unfold compute_early_warning warning_activity_decline_signal
      warning_anomaly_signal warning_repayment_signal warning_volatility_signal
      warning_low_forecast_signal warning_recency_signal riskLevel75 noDataForecast
    norm_num [min_def, pyRound_zero]

/-- C9: in the integrity checker, every event whose rating jumps by more
than the threshold (2) relative to the chronologically previous proof is
added to the flagged event ids, even when fewer than 3 such jumps occur;
and on the concrete two-proof history with a single jump of 4,
`check_workproof_integrity` returns a non-empty flagged list while
`flagScore` is 0, no rating-manipulation flag string is emitted, and the
flags list reads "No integrity issues detected". -/
theorem c9_rating_jump_flagged :
    (∀ (hist : List HProof) (a b : ℕ × ℕ × ℤ),
      (a, b) ∈ (ratingsSortedByTs hist).zip (ratingsSortedByTs hist).tail →
      2 < Nat.dist a.2.1 b.2.1 →
      b.1 ∈ (check_workproof_integrity hist).eventIds)
    ∧ (check_workproof_integrity demoIntegrityHist).eventIds = [2]
    ∧ (check_workproof_integrity demoIntegrityHist).flagScore = 0
    ∧ (check_workproof_integrity demoIntegrityHist).flags
        = ["No integrity issues detected"] := by
  refine ⟨?_, by decide, by decide, by decide⟩
  intro hist a b hmem hjump
  rcases hist with _ | ⟨w, ws⟩
  · simp [ratingsSortedByTs, stableSort] at hmem
  · show b.1 ∈ (integrity_dup_flagged (w :: ws)
      ++ (ratingJumpPairs (w :: ws)).map (fun p => p.2.1)).dedup
    rw [List.mem_dedup]
    refine List.mem_append.mpr (Or.inr ?_)
    refine List.mem_map.mpr ⟨(a, b), ?_, rfl⟩
    unfold ratingJumpPairs
    refine List.mem_filter.mpr ⟨hmem, ?_⟩
    simpa using hjump

/-- Witness for C9: the flagging applied to the concrete history — proof
id 2, whose rating jumps from 1 to 5 relative to the previous proof, is
in the flagged event ids. -/
theorem c9_rating_jump_flagged_witness :
    (2 : ℕ) ∈ (check_workproof_integrity demoIntegrityHist).eventIds :=
  c9_rating_jump_flagged.1 demoIntegrityHist (1, 1, 1000000) (2, 5, 1172800)
    (by decide) (by decide)

theorem get_worker_features_loanCount (sqrtFn : ℚ → ℚ) (now : ℤ)
    (wps : List WpRow) (loans repays : List LedgerRow) :
    (get_worker_features sqrtFn now wps loans repays).loanCount30d
      = (loans.filter (fun l => match l.indexedAt with
          | some t => decide (now - 30 * 86400 ≤ t)
          | none => false)).length := rfl

theorem get_worker_features_repayR (sqrtFn : ℚ → ℚ) (now : ℤ)
    (wps : List WpRow) (loans repays : List LedgerRow) :
    (get_worker_features sqrtFn now wps loans repays).repayRatio30d
      = pyRound 2
          (if (get_worker_features sqrtFn now wps loans repays).loanCount30d > 0 then
            min 1 (((repays.filter (fun r => match r.indexedAt with
                | some t => decide (now - 30 * 86400 ≤ t)
                | none => false)).length : ℚ)
              / ((get_worker_features sqrtFn now wps loans repays).loanCount30d : ℚ))
          else 1) := rfl

/-- C10: the feature extractor's repayRatio_30d is always in [0, 1]; for
every worker with zero loan events in the last 30 days it is exactly 1.0
(the perfect-ratio default); and consequently the fraud detector's
low-repay signal and the early-warning repayment signal contribute
nothing for a worker with no loans. -/
theorem c10_repay_ratio_defaults :
    ∀ (sqrtFn : ℚ → ℚ) (now : ℤ) (wps : List WpRow) (loans repays : List LedgerRow),
      (0 ≤ (get_worker_features sqrtFn now wps loans repays).repayRatio30d
        ∧ (get_worker_features sqrtFn now wps loans repays).repayRatio30d ≤ 1)
      ∧ ((get_worker_features sqrtFn now wps loans repays).loanCount30d = 0 →
          (get_worker_features sqrtFn now wps loans repays).repayRatio30d = 1)
      ∧ ((get_worker_features sqrtFn now wps loans repays).loanCount30d = 0 →
          fraud_low_repay_signal (get_worker_features sqrtFn now wps loans repays) = 0
          ∧ warning_repayment_signal (get_worker_features sqrtFn now wps loans repays) = 0) := by
  intro sqrtFn now wps loans repays
  refine ⟨⟨?_, ?_⟩, ?_, ?_⟩
  · rw [get_worker_features_repayR]
    apply pyRound_nonneg
    split_ifs with h
    · exact le_min (by norm_num)
        (div_nonneg (Nat.cast_nonneg _) (Nat.cast_nonneg _))
    · norm_num
  · rw [get_worker_features_repayR]
    apply pyRound_le_one
    split_ifs with h
    · exact min_le_left _ _
    · exact le_refl 1
  · intro h
    rw [get_worker_features_repayR, h]
    rw [if_neg (by norm_num)]
    exact pyRound_one 2
  · intro h
    constructor
    · unfold fraud_low_repay_signal
      rw [if_neg]
      rintro ⟨h2, _⟩
      rw [h] at h2
      omega
    · unfold warning_repayment_signal
      rw [if_neg]
      rintro ⟨h2, _⟩
      rw [h] at h2
      omega

/-- Witness for C10: the loan-free worker with empty history — ratio
bounds hold, the ratio is exactly 1, and both repayment signals are 0. -/
theorem c10_repay_ratio_defaults_witness :
    (0 ≤ (get_worker_features (fun _ => 0) 0 [] [] []).repayRatio30d
      ∧ (get_worker_features (fun _ => 0) 0 [] [] []).repayRatio30d ≤ 1)
    ∧ (get_worker_features (fun _ => 0) 0 [] [] []).repayRatio30d = 1
    ∧ (fraud_low_repay_signal (get_worker_features (fun _ => 0) 0 [] [] []) = 0
      ∧ warning_repayment_signal (get_worker_features (fun _ => 0) 0 [] [] []) = 0) :=
  ⟨(c10_repay_ratio_defaults (fun _ => 0) 0 [] [] []).1,
   (c10_repay_ratio_defaults (fun _ => 0) 0 [] [] []).2.1 rfl,
   (c10_repay_ratio_defaults (fun _ => 0) 0 [] [] []).2.2 rfl⟩

end UnEmpower
